import Mathlib

/-!
Verification development for the `not-express` HTTP dispatch engine
(`src/express.js`).

The embedding below translates the dispatch core of the source file into
executable Lean definitions:

* `pathToRegExp`, `matchRoute`, `findFirstMatch` model the path matcher and
  the route-finding logic (`routes.find(matchRoute(req))` plus the
  `slice(indexOf + 1)` computation of the unexplored tail).
* `findRouteAndCallMiddleware`, `callMiddleware`, `callMiddlewareTry` and
  `runProgram` model the mutually recursive continuation-passing dispatcher.
  JavaScript's `try { ... } catch (err) { next(err) }` wrapper of
  `callMiddleware` is made explicit by splitting the function into the try
  body (`callMiddlewareTry`) and the catch wrapper (`callMiddleware`).
  The recursion of the source always terminates (every recursive call
  strictly shrinks the pending registry or the pending middleware list), and
  is rendered structurally recursive here with an explicit `fuel : Nat`
  upper bound on the recursion depth; `handleRequest` supplies a bound that
  dominates the maximal depth for its registry, and the concrete theorems
  below evaluate without ever reaching the `fuelOut` marker.
* Middleware functions are modelled as black boxes: a declared arity (the
  source discriminates error handlers solely by `fn.length === 4`), plus a
  behaviour for being called as `fn(req, res, next)` and a behaviour for
  being called as `fn(err, req, res, next)`.  A behaviour is a list of
  response-writing steps followed by how the call frame finishes: returning,
  throwing, or calling the continuation `next` (possibly throwing after the
  continuation returns).  Response semantics follow Node: `writeHead` throws
  once headers are sent, `end` flushes headers, marks the response finished
  and appends the body.
* `get`, `use`, `notFoundError`, `internalServerError`, `callNextRoute`,
  `defaultRoutes` and `handleRequest` are translated directly from
  `createApplication` and the module-level helpers.

String route paths are compiled by the source to `^path$`; for paths without
regular-expression metacharacters (the case the source documents and uses)
this is exact string equality, which is how `PathSpec.str` is modelled.  A
`RegExp` route is already a matching rule; it is modelled as its (anchored)
match function, returning the list of captured groups on success.
-/

/-- Error values that can travel through the `next` channel or be thrown:
a user error (carrying its message), Node's `ERR_HTTP_HEADERS_SENT` raised
by `writeHead` after the headers went out, and the `TypeError` raised by
`findRouteAndCallMiddleware` when `routes.find` yields `undefined` and the
code reads `.middleware` of it. -/
inductive EVal where
  | user (msg : String)
  | headersSent
  | noRoute
deriving DecidableEq, Repr

/-- Message carried by an error value, as read by handlers via
`err.message`. -/
def EVal.message : EVal → String
  | .user s => s
  | .headersSent => "ERR_HTTP_HEADERS_SENT"
  | .noRoute => "TypeError"

/-- The request object: method, raw url, and the mutable fields the
dispatcher may touch.  `params` is assigned by `matchRoute` on a successful
match; `query` starts absent and — as proved below — is never assigned by
the dispatch code. -/
structure Req where
  method : String
  url : String
  params : List String := []
  query : Option (List (String × String)) := none
deriving DecidableEq, Repr

/-- The response object, with Node stream semantics for the parts the code
uses: a status code (200 until set), whether headers have been flushed,
whether the body stream was ended, and the accumulated body. -/
structure Res where
  statusCode : Nat := 200
  headersSent : Bool := false
  ended : Bool := false
  body : String := ""
deriving DecidableEq, Repr

/-- The request/response pair threaded through a dispatch. -/
structure Conn where
  req : Req
  res : Res
deriving DecidableEq, Repr

/-- How a dispatch computation finishes: normal return, an exception
propagating out of the current frame, or fuel exhaustion (never reached by
the adequately fueled runs below). -/
inductive DOut where
  | ok
  | ex (e : EVal)
  | fuelOut
deriving DecidableEq, Repr

/-- Result of a dispatch computation: the final request/response state and
how control left the computation. -/
abbrev DResult := Conn × DOut

/-- Response-writing steps a handler can perform before finishing its call
frame. -/
inductive HStep where
  | writeHead (code : Nat)
  | endRes (body : String)
deriving DecidableEq, Repr

/-- Argument a handler passes to the continuation `next`: nothing (continue),
the `"route"` sentinel, or an error value. -/
inductive NextSig where
  | nil
  | route
  | fail (e : EVal)
deriving DecidableEq, Repr

/-- How a handler's call frame finishes after its response-writing steps:
plain return, a synchronous throw, a call to `next`, or a call to `next`
followed by a throw after the continuation returned. -/
inductive HFinal where
  | ret
  | throwE (e : EVal)
  | callNext (sig : NextSig)
  | callNextThenThrow (sig : NextSig) (e : EVal)
deriving DecidableEq, Repr

/-- A handler invocation's observable behaviour. -/
abbrev MwProgram := List HStep × HFinal

/-- A middleware function: its declared arity (the sole discriminator the
source uses to recognise error handlers), its behaviour when called as
`fn(req, res, next)`, and its behaviour when called as
`fn(err, req, res, next)`.  The `id` field only serves to observe which
functions a registration stored. -/
structure Mw where
  id : Nat
  arity : Nat
  runNormal : Conn → MwProgram
  runError : EVal → Conn → MwProgram

/-- A route, as pushed by `get`/`use`: optional HTTP method, the middleware
list, and the compiled matching rule (a function from the request url to
`none` or the list of captured groups, i.e. `match.slice(1)`). -/
structure Route where
  method : Option String := none
  middleware : List Mw
  regexp : String → Option (List String)

/-- A route path as accepted by `get`: a literal string or an
already-compiled pattern (a `RegExp` in the source), the latter given by
its anchored match function. -/
inductive PathSpec where
  | str (s : String)
  | regex (f : String → Option (List String))

/-- Translation of `pathToRegExp`: a literal string is wrapped in `^...$`,
which for metacharacter-free strings (the supported common case) is exact
equality against the whole url; a pattern is used as its own (anchored)
matching rule. -/
def pathToRegExp : PathSpec → (String → Option (List String))
  | .str s => fun url => if url = s then some [] else none
  | .regex f => f

/-- Test whether a string starts with the character `/`, phrased on the
underlying character list so that it evaluates inside the kernel. -/
def startsWithSlash (s : String) : Bool :=
  match s.data with
  | '/' :: _ => true
  | _ => false

/-- The `/^\//` rule used by the two default routes and by `use`: matches
exactly when the url starts with `/`, capturing nothing. -/
def rootRegexp : String → Option (List String) :=
  fun url => if startsWithSlash url then some [] else none

/-- Translation of `matchRoute req route` minus its side effect: `none`
when the method gate fails or the regexp does not match the (full) request
url, otherwise the captured groups that the source assigns to
`req.params`. -/
def matchRoute (req : Req) (route : Route) : Option (List String) :=
  match route.method with
  | some m => if req.method ≠ m then none else route.regexp req.url
  | none => route.regexp req.url

/-- The `routes.find(matchRoute(req))` step of `findRouteAndCallMiddleware`
together with `routes.slice(routes.indexOf(matchingRoute) + 1)`: the first
matching route, its captured groups, and the unexplored tail. -/
def findFirstMatch (req : Req) : List Route → Option (Route × List String × List Route)
  | [] => none
  | r :: rest =>
    match matchRoute req r with
    | some g => some (r, g, rest)
    | none => findFirstMatch req rest

/-- Application of a handler's response-writing steps, with Node semantics:
`writeHead` throws `ERR_HTTP_HEADERS_SENT` once headers are out (aborting
the remaining steps), `end` flushes headers, marks the stream ended and
appends the body (a second `end` is a no-op for the synchronous control
flow modelled here). -/
def runSteps : List HStep → Res → Res × Option EVal
  | [], r => (r, none)
  | .writeHead code :: rest, r =>
    if r.headersSent then (r, some .headersSent)
    else runSteps rest { r with statusCode := code, headersSent := true }
  | .endRes b :: rest, r =>
    if r.ended then runSteps rest r
    else runSteps rest { r with headersSent := true, ended := true, body := r.body ++ b }

mutual

/-- Translation of `findRouteAndCallMiddleware(err, req, res, routes)`.
When no route matches, `routes.find` yields `undefined` and reading
`matchingRoute.middleware` throws a `TypeError` (`EVal.noRoute`); otherwise
`req.params` is overwritten with the captured groups and the matched
route's middleware list is processed with the unexplored routes as the
`nextRoutes` argument. -/
def findRouteAndCallMiddleware : Nat → Option EVal → Conn → List Route → DResult
  | 0, _, c, _ => (c, .fuelOut)
  | n + 1, err, c, routes =>
    match findFirstMatch c.req routes with
    | none => (c, .ex .noRoute)
    | some (r, g, rest) =>
      callMiddleware n err { c with req := { c.req with params := g } } r.middleware rest

/-- Translation of `callMiddleware(err, req, res, middleware, nextRoutes)`:
the whole body runs inside `try { ... } catch (err) { next(err) }`, so an
exception left by the body is converted into `next(err)` — i.e. into an
error-phase `findRouteAndCallMiddleware` over `nextRoutes` — while an
exception raised by that catch-initiated dispatch itself propagates out
uncaught. -/
def callMiddleware : Nat → Option EVal → Conn → List Mw → List Route → DResult
  | 0, _, c, _, _ => (c, .fuelOut)
  | n + 1, err, c, m, rs =>
    match callMiddlewareTry n err c m rs with
    | (c', .ex e) => findRouteAndCallMiddleware n (some e) c' rs
    | (c', .ok) => (c', .ok)
    | (c', .fuelOut) => (c', .fuelOut)

/-- The try block of `callMiddleware`: an exhausted middleware list issues
`next("route")` (clearing any in-flight error), a non-error-handler head is
skipped past with `next(err)` while an error is in flight, and otherwise
the head function is invoked — as `fn(err, req, res, next)` when an error
is in flight (then `fn.length === 4` holds), else as `fn(req, res, next)`. -/
def callMiddlewareTry : Nat → Option EVal → Conn → List Mw → List Route → DResult
  | 0, _, c, _, _ => (c, .fuelOut)
  | n + 1, err, c, m, rs =>
    match m with
    | [] => findRouteAndCallMiddleware n none c rs
    | fn :: tail =>
      match err with
      | some e =>
        if fn.arity = 4 then runProgram n (fn.runError e c) c tail rs
        else findRouteAndCallMiddleware n (some e) c rs
      | none => runProgram n (fn.runNormal c) c tail rs

/-- Execution of one handler invocation inside the try block: apply its
response-writing steps (a step may throw), then interpret how the call
frame finishes.  A call to `next` runs the dynamically created continuation
of the source: `next()` recurses into `callMiddleware` on the remaining
middleware, `next("route")` and `next(error)` recurse into
`findRouteAndCallMiddleware` on the unexplored routes.  For a handler that
throws after its `next` call returned, the throw only happens if the
continuation returned normally — an exception propagating out of the
continuation unwinds through the handler's frame first. -/
def runProgram : Nat → MwProgram → Conn → List Mw → List Route → DResult
  | 0, _, c, _, _ => (c, .fuelOut)
  | n + 1, (steps, fin), c, tail, rs =>
    match runSteps steps c.res with
    | (res', some e) => ({ c with res := res' }, .ex e)
    | (res', none) =>
      match fin with
      | .ret => ({ c with res := res' }, .ok)
      | .throwE e => ({ c with res := res' }, .ex e)
      | .callNext .nil => callMiddleware n none { c with res := res' } tail rs
      | .callNext .route => findRouteAndCallMiddleware n none { c with res := res' } rs
      | .callNext (.fail e) => findRouteAndCallMiddleware n (some e) { c with res := res' } rs
      | .callNextThenThrow sig e =>
        match (match sig with
               | .nil => callMiddleware n none { c with res := res' } tail rs
               | .route => findRouteAndCallMiddleware n none { c with res := res' } rs
               | .fail e2 => findRouteAndCallMiddleware n (some e2) { c with res := res' } rs) with
        | (c2, .ok) => (c2, .ex e)
        | r => r

end

/-- Translation of `callNextRoute(req, res, next)`: an arity-3 helper that
immediately calls `next("route")`; `use` appends it after the mounted
middleware. -/
def callNextRoute : Mw where
  id := 1002
  arity := 3
  runNormal := fun _ => ([], .callNext .route)
  runError := fun _ _ => ([], .callNext .route)

/-- Translation of `notFoundError(req, res)`: arity 2, writes a 404 head
and ends the response with `"Not Found"`.  Its arity keeps it from ever
being called in an error phase, so the `runError` field is unreachable. -/
def notFoundError : Mw where
  id := 1000
  arity := 2
  runNormal := fun _ => ([.writeHead 404, .endRes "Not Found"], .ret)
  runError := fun _ _ => ([], .ret)

/-- Translation of `internalServerError(err, req, res, next)`: arity 4,
writes a 500 head and ends the response with `"Internal Server Error"`.
Called with no error in flight it would receive the request in its `err`
slot and crash on `res.writeHead` (the response slot then holds the `next`
function), modelled as an immediate `TypeError` throw; the dispatcher never
reaches that case in the theorems below. -/
def internalServerError : Mw where
  id := 1001
  arity := 4
  runError := fun _ _ => ([.writeHead 500, .endRes "Internal Server Error"], .ret)
  runNormal := fun _ => ([], .throwE (.user "TypeError"))

/-- The `notFoundRoute` of `createApplication`: no method, `/^\//`,
middleware `[notFoundError]`. -/
def notFoundRoute : Route where
  method := none
  middleware := [notFoundError]
  regexp := rootRegexp

/-- The `internalServerErrorRoute` of `createApplication`. -/
def internalServerErrorRoute : Route where
  method := none
  middleware := [internalServerError]
  regexp := rootRegexp

/-- The `defaultRoutes` list appended to every dispatch. -/
def defaultRoutes : List Route := [notFoundRoute, internalServerErrorRoute]

/-- One variadic argument of `get`: a middleware function or an array of
middleware functions (`callbacks.flat()` flattens exactly one level). -/
inductive MwArg where
  | one (m : Mw)
  | arr (ms : List Mw)

/-- The `callbacks.flat()` call of `get`. -/
def flattenArgs : List MwArg → List Mw
  | [] => []
  | .one m :: rest => m :: flattenArgs rest
  | .arr ms :: rest => ms ++ flattenArgs rest

/-- Translation of `get(path, ...callbacks)`: pushes one route with method
`"GET"`, the flattened callback list, and the compiled path. -/
def get (routes : List Route) (path : PathSpec) (callbacks : List MwArg) : List Route :=
  routes ++ [{ method := some "GET"
               middleware := flattenArgs callbacks
               regexp := pathToRegExp path }]

/-- Translation of `use(callback)`: pushes one method-agnostic route with
rule `/^\//` whose middleware is the single accepted callback followed by
`callNextRoute`. -/
def use (routes : List Route) (callback : Mw) : List Route :=
  routes ++ [{ method := none
               middleware := [callback, callNextRoute]
               regexp := rootRegexp }]

/-- Combined size of a registry, counting routes and their middleware; the
real recursion depth of a dispatch is bounded by a small multiple of it. -/
def routesSize (rs : List Route) : Nat :=
  (rs.map (fun r => r.middleware.length + 1)).sum

/-- Fuel bound used by `handleRequest`; each unit of `routesSize` costs at
most a handful of interpreter steps, so this dominates the recursion
depth. -/
def fuelFor (routes : List Route) : Nat :=
  8 * routesSize routes + 64

/-- Translation of `handleRequest(req, res)`: dispatch with no error over
the registered routes followed by the two default routes. -/
def handleRequest (appRoutes : List Route) (c : Conn) : DResult :=
  findRouteAndCallMiddleware (fuelFor (appRoutes ++ defaultRoutes)) none c
    (appRoutes ++ defaultRoutes)

/-- A fresh request/response pair, as handed over by the http server. -/
def initConn (method url : String) : Conn :=
  { req := { method := method, url := url }, res := {} }

/-!
Scenario middleware used by the concrete dispatch runs below.  Each one is
the black-box behaviour of a small user handler from the repository's tests
or from the spec's scenarios.
-/

/-- Handler `function (req, res) { res.end("Hello World!") }` (arity 2). -/
def helloMw : Mw where
  id := 1
  arity := 2
  runNormal := fun _ => ([.endRes "Hello World!"], .ret)
  runError := fun _ _ => ([], .ret)

/-- Handler `function () { throw new Error("Oops!") }` (arity 0). -/
def throwMw : Mw where
  id := 2
  arity := 0
  runNormal := fun _ => ([], .throwE (.user "Oops!"))
  runError := fun _ _ => ([], .ret)

/-- An error handler (arity 4) that ends the response with a recognisable
body whenever it is invoked. -/
def groupErrMw : Mw where
  id := 3
  arity := 4
  runNormal := fun _ => ([], .ret)
  runError := fun _ _ => ([.endRes "handled by group error handler"], .ret)

/-- Error handler `function (err, req, res, next) { res.end(err.message) }`
(arity 4). -/
def errMsgMw : Mw where
  id := 4
  arity := 4
  runNormal := fun _ => ([], .ret)
  runError := fun e _ => ([.endRes e.message], .ret)

/-- Error handler `function (err, req, res, next) { throw new Error("Oops
again!") }` (arity 4). -/
def errThrowMw : Mw where
  id := 5
  arity := 4
  runNormal := fun _ => ([], .ret)
  runError := fun _ _ => ([], .throwE (.user "Oops again!"))

/-- Handler `function (req, res, next) { next("route") }` (arity 3). -/
def routeSkipMw : Mw where
  id := 6
  arity := 3
  runNormal := fun _ => ([], .callNext .route)
  runError := fun _ _ => ([], .ret)

/-- Error handler (arity 4) that calls `next("route")`. -/
def errRouteMw : Mw where
  id := 7
  arity := 4
  runNormal := fun _ => ([], .ret)
  runError := fun _ _ => ([], .callNext .route)

/-- Handler that writes a 200 head and then calls `next()` (arity 3). -/
def headWriterMw : Mw where
  id := 8
  arity := 3
  runNormal := fun _ => ([.writeHead 200], .callNext .nil)
  runError := fun _ _ => ([], .ret)

/-- Handler that ends the response and then throws (arity 3). -/
def endThenThrowMw : Mw where
  id := 9
  arity := 3
  runNormal := fun _ => ([.endRes "partial"], .throwE (.user "late"))
  runError := fun _ _ => ([], .ret)

/-- Handler that calls `next()` synchronously and throws after the
continuation returns (arity 3). -/
def nextThenThrowMw : Mw where
  id := 10
  arity := 3
  runNormal := fun _ => ([], .callNextThenThrow .nil (.user "Oops!"))
  runError := fun _ _ => ([], .ret)

/-- Handler that ends the response with a recognisable body; used to show a
middleware is skipped. -/
def badMw : Mw where
  id := 11
  arity := 2
  runNormal := fun _ => ([.endRes "SHOULD NOT RUN"], .ret)
  runError := fun _ _ => ([], .ret)

/-- The dispatcher never writes the request's `query` field: every
interpreter function returns a state whose `query` equals the incoming
one.  Proof by induction on the fuel, following the mutually recursive
structure of the interpreter. -/
theorem query_invariant : ∀ n : Nat,
    (∀ (err : Option EVal) (c : Conn) (routes : List Route),
      ((findRouteAndCallMiddleware n err c routes).1).req.query = c.req.query) ∧
    (∀ (err : Option EVal) (c : Conn) (m : List Mw) (rs : List Route),
      ((callMiddleware n err c m rs).1).req.query = c.req.query) ∧
    (∀ (err : Option EVal) (c : Conn) (m : List Mw) (rs : List Route),
      ((callMiddlewareTry n err c m rs).1).req.query = c.req.query) ∧
    (∀ (p : MwProgram) (c : Conn) (tail : List Mw) (rs : List Route),
      ((runProgram n p c tail rs).1).req.query = c.req.query) := by
  intro n
  induction n with
  | zero =>
    exact ⟨fun _ _ _ => rfl, fun _ _ _ _ => rfl, fun _ _ _ _ => rfl, fun _ _ _ _ => rfl⟩
  | succ n ih =>
    obtain ⟨ihF, ihC, ihT, ihR⟩ := ih
    refine ⟨?_, ?_, ?_, ?_⟩
    · intro err c routes
      simp only [findRouteAndCallMiddleware]
      cases h : findFirstMatch c.req routes with
      | none => rfl
      | some x =>
        obtain ⟨r, g, rest⟩ := x
        exact ihC err _ r.middleware rest
    · intro err c m rs
      simp only [callMiddleware]
      rcases h : callMiddlewareTry n err c m rs with ⟨c', o⟩
      have hq : c'.req.query = c.req.query := by
        have h2 := ihT err c m rs
        rw [h] at h2
        exact h2
      cases o with
      | ok => exact hq
      | fuelOut => exact hq
      | ex e => exact (ihF (some e) c' rs).trans hq
    · intro err c m rs
      cases m with
      | nil =>
        simp only [callMiddlewareTry]
        exact ihF none c rs
      | cons fn tail =>
        cases err with
        | none =>
          simp only [callMiddlewareTry]
          exact ihR _ _ tail rs
        | some e =>
          simp only [callMiddlewareTry]
          by_cases h4 : fn.arity = 4
          · simp only [h4, if_true]
            exact ihR _ _ tail rs
          · simp only [h4, if_false]
            exact ihF (some e) c rs
    · intro p c tail rs
      obtain ⟨steps, fin⟩ := p
      simp only [runProgram]
      rcases hs : runSteps steps c.res with ⟨res', eo⟩
      cases eo with
      | some e => rfl
      | none =>
        cases fin with
        | ret => rfl
        | throwE e => rfl
        | callNext sig =>
          cases sig with
          | nil => exact ihC none _ tail rs
          | route => exact ihF none _ rs
          | fail e => exact ihF (some e) _ rs
        | callNextThenThrow sig e =>
          cases sig with
          | nil =>
            rcases hI : callMiddleware n none { c with res := res' } tail rs with ⟨c2, o2⟩
            have hq : c2.req.query = c.req.query := by
              have h2 := ihC none { c with res := res' } tail rs
              rw [hI] at h2
              exact h2
            show (match callMiddleware n none { c with res := res' } tail rs with
                  | (c2, DOut.ok) => (c2, DOut.ex e)
                  | r => r).1.req.query = c.req.query
            rw [hI]
            cases o2 <;> exact hq
          | route =>
            rcases hI : findRouteAndCallMiddleware n none { c with res := res' } rs with ⟨c2, o2⟩
            have hq : c2.req.query = c.req.query := by
              have h2 := ihF none { c with res := res' } rs
              rw [hI] at h2
              exact h2
            show (match findRouteAndCallMiddleware n none { c with res := res' } rs with
                  | (c2, DOut.ok) => (c2, DOut.ex e)
                  | r => r).1.req.query = c.req.query
            rw [hI]
            cases o2 <;> exact hq
          | fail e0 =>
            rcases hI : findRouteAndCallMiddleware n (some e0) { c with res := res' } rs with ⟨c2, o2⟩
            have hq : c2.req.query = c.req.query := by
              have h2 := ihF (some e0) { c with res := res' } rs
              rw [hI] at h2
              exact h2
            show (match findRouteAndCallMiddleware n (some e0) { c with res := res' } rs with
                  | (c2, DOut.ok) => (c2, DOut.ex e)
                  | r => r).1.req.query = c.req.query
            rw [hI]
            cases o2 <;> exact hq

/-- When the request url starts with `/`, the default routes guarantee that
`routes.find(matchRoute(req))` succeeds on any registry extended with
them. -/
theorem findFirstMatch_defaults (req : Req) (h : startsWithSlash req.url = true) :
    ∀ rs : List Route, (findFirstMatch req (rs ++ defaultRoutes)).isSome = true := by
  intro rs
  induction rs with
  | nil =>
    simp [findFirstMatch, defaultRoutes, matchRoute, notFoundRoute, rootRegexp, h]
  | cons r rest ih =>
    simp only [List.cons_append, findFirstMatch]
    cases hm : matchRoute req r with
    | some g => rfl
    | none => exact ih

/-- Claim C1, counterexample.  The claim says the request URL is split into
a path component and a query mapping before path matching, so that "the
presence of a query string never affects whether an entry matches".  In the
code, `matchRoute` runs the route pattern against the raw `req.url`: with a
`GET /` handler registered, the request `GET /` matches it (200, "Hello
World!") while the request `GET /?a=1` — same path component, query string
added — does not match and falls through to the 404 fallback. -/
theorem C1_counterexample :
    handleRequest (get [] (.str "/") [.one helloMw]) (initConn "GET" "/") =
      ({ req := { method := "GET", url := "/" },
         res := { statusCode := 200, headersSent := true, ended := true,
                  body := "Hello World!" } }, .ok) ∧
    handleRequest (get [] (.str "/") [.one helloMw]) (initConn "GET" "/?a=1") =
      ({ req := { method := "GET", url := "/?a=1" },
         res := { statusCode := 404, headersSent := true, ended := true,
                  body := "Not Found" } }, .ok) := by
  exact ⟨by decide, by decide⟩

/-- Claim C1, amended.  For every dispatch step, the matcher is run against
the full request URL (the URL is never split and no query mapping is
parsed): the route-finding step feeds `req.url` whole into the route's
pattern, on a successful match the request's `params` is overwritten with
the captured group values before the route's middleware runs, and the
request's `query` field is never assigned by the dispatcher. -/
theorem C1_amended :
    (∀ (n : Nat) (err : Option EVal) (c : Conn) (routes : List Route)
        (r : Route) (g : List String) (rest : List Route),
      findFirstMatch c.req routes = some (r, g, rest) →
      findRouteAndCallMiddleware (n + 1) err c routes =
        callMiddleware n err { c with req := { c.req with params := g } }
          r.middleware rest) ∧
    (∀ (req : Req) (route : Route), route.method = none →
      matchRoute req route = route.regexp req.url) ∧
    (∀ (n : Nat) (err : Option EVal) (c : Conn) (routes : List Route),
      ((findRouteAndCallMiddleware n err c routes).1).req.query = c.req.query) := by
  refine ⟨?_, ?_, ?_⟩
  · intro n err c routes r g rest h
    simp [findRouteAndCallMiddleware, h]
  · intro req route h
    simp [matchRoute, h]
  · intro n err c routes
    exact (query_invariant n).1 err c routes

/-- Witness for C1: the amended theorem applied to the request `GET /?q=1`
dispatched over the default routes. -/
theorem C1_witness :
    findFirstMatch (initConn "GET" "/?q=1").req defaultRoutes =
      some (notFoundRoute, [], [internalServerErrorRoute]) ∧
    findRouteAndCallMiddleware 5 none (initConn "GET" "/?q=1") defaultRoutes =
      callMiddleware 4 none
        { initConn "GET" "/?q=1" with
          req := { (initConn "GET" "/?q=1").req with params := ([] : List String) } }
        notFoundRoute.middleware [internalServerErrorRoute] ∧
    notFoundRoute.method = none ∧
    matchRoute (initConn "GET" "/?q=1").req notFoundRoute =
      notFoundRoute.regexp (initConn "GET" "/?q=1").req.url :=
  ⟨rfl, C1_amended.1 4 none _ _ _ _ _ rfl, rfl, C1_amended.2.1 _ _ rfl⟩

/-- Claim C2, counterexample.  The claim says that when an error is in
flight and the head handler is not error-shaped, only that single entry is
skipped, so an error-shape handler registered later in the same
registration group is still invoked.  In the code, `next(err)` jumps to
`findRouteAndCallMiddleware` over the routes *after* the current one: with
`get("/", throwMw, groupErrMw)` registered, the thrown error skips the
whole group, `groupErrMw` (which would end the response with "handled by
group error handler") never runs, and the default 500 route answers. -/
theorem C2_counterexample :
    handleRequest (get [] (.str "/") [.one throwMw, .one groupErrMw]) (initConn "GET" "/") =
      ({ req := { method := "GET", url := "/" },
         res := { statusCode := 500, headersSent := true, ended := true,
                  body := "Internal Server Error" } }, .ok) ∧
    (handleRequest (get [] (.str "/") [.one throwMw, .one groupErrMw])
        (initConn "GET" "/")).1.res.body ≠ "handled by group error handler" := by
  exact ⟨by decide, by decide⟩

/-- Claim C2, amended.  When an error is in flight and the head handler of
the current entry group does not have error-handler shape (arity 4), the
dispatcher abandons the entire remaining middleware list of that group and
continues the error-phase search at the entries after the group; an
error-shape handler registered later in the same group is not invoked for
that error. -/
theorem C2_amended (n : Nat) (e : EVal) (c : Conn) (fn : Mw) (tail : List Mw)
    (rs : List Route) (h : fn.arity ≠ 4) :
    callMiddlewareTry (n + 1) (some e) c (fn :: tail) rs =
      findRouteAndCallMiddleware n (some e) c rs := by
  simp [callMiddlewareTry, h]

/-- Witness for C2: the amended theorem applied to `notFoundError` (arity
2) with an error in flight. -/
theorem C2_witness :
    notFoundError.arity ≠ 4 ∧
    callMiddlewareTry 1 (some (.user "boom")) (initConn "GET" "/") [notFoundError] [] =
      findRouteAndCallMiddleware 0 (some (.user "boom")) (initConn "GET" "/") [] :=
  ⟨by decide, C2_amended 0 (.user "boom") (initConn "GET" "/") notFoundError [] [] (by decide)⟩

/-- Claim C3, counterexample.  The claim says the default responder first
checks whether response headers have been sent and, if so, only terminates
the response body, and that it never itself throws.  The code has no such
check: with a handler that writes a 200 head and then calls `next()`, the
404 default route's unconditional `writeHead` raises
`ERR_HTTP_HEADERS_SENT`, the 500 default route's `writeHead` raises too,
and the dispatch ends with an escaping exception while the response body
is never terminated (`ended = false`). -/
theorem C3_counterexample :
    handleRequest (get [] (.str "/") [.one headWriterMw]) (initConn "GET" "/") =
      ({ req := { method := "GET", url := "/" },
         res := { statusCode := 200, headersSent := true, ended := false,
                  body := "" } }, .ex .noRoute) ∧
    (handleRequest (get [] (.str "/") [.one headWriterMw])
        (initConn "GET" "/")).1.res.ended = false ∧
    (handleRequest (get [] (.str "/") [.one headWriterMw])
        (initConn "GET" "/")).2 ≠ .ok := by
  exact ⟨by decide, by decide, by decide⟩

/-- Claim C3, amended.  The default responders perform no headers-sent
check.  With headers not yet sent, exhausting the registry writes the fixed
404 response when no error is present and the fixed 500 response when any
error is present.  If headers were already sent, their unconditional
status-line write raises instead, the dispatch ends with an escaping
exception, and the response body is not terminated by them. -/
theorem C3_amended :
    findRouteAndCallMiddleware 32 none (initConn "GET" "/") defaultRoutes =
      ({ req := { method := "GET", url := "/" },
         res := { statusCode := 404, headersSent := true, ended := true,
                  body := "Not Found" } }, .ok) ∧
    (∀ e : EVal,
      findRouteAndCallMiddleware 32 (some e) (initConn "GET" "/") defaultRoutes =
        ({ req := { method := "GET", url := "/" },
           res := { statusCode := 500, headersSent := true, ended := true,
                    body := "Internal Server Error" } }, .ok)) ∧
    findRouteAndCallMiddleware 32 (some (.user "boom"))
        { req := { method := "GET", url := "/" },
          res := { statusCode := 200, headersSent := true } } defaultRoutes =
      ({ req := { method := "GET", url := "/" },
         res := { statusCode := 200, headersSent := true } }, .ex .noRoute) := by
  exact ⟨by decide, fun e => rfl, by decide⟩

/-- Claim C4, counterexample.  The claim says an in-flight error is never
silently cleared before the registry is exhausted, in particular not when a
matched entry group runs out of handlers.  In the code, an exhausted
middleware list issues `next("route")`, which dispatches onward with *no*
error: with `get("/", throwMw)` followed by an empty registration
`get("/")`, the thrown error reaches the empty group, is cleared there, and
the request ends as a 404 — not as the 500 the claim requires. -/
theorem C4_counterexample :
    handleRequest (get (get [] (.str "/") [.one throwMw]) (.str "/") [])
        (initConn "GET" "/") =
      ({ req := { method := "GET", url := "/" },
         res := { statusCode := 404, headersSent := true, ended := true,
                  body := "Not Found" } }, .ok) ∧
    (handleRequest (get (get [] (.str "/") [.one throwMw]) (.str "/") [])
        (initConn "GET" "/")).1.res.statusCode ≠ 500 := by
  exact ⟨by decide, by decide⟩

/-- Claim C4, amended.  An in-flight error propagates forward through the
remaining registry and surfaces as the fixed-body 500 when no error-shape
handler claims it — except that a matched entry group that runs out of
handlers (e.g. an empty handler list) issues the route-skip signal, which
silently clears the in-flight error and continues the traversal
error-free. -/
theorem C4_amended :
    (∀ (n : Nat) (err : Option EVal) (c : Conn) (rs : List Route),
      callMiddlewareTry (n + 1) err c [] rs =
        findRouteAndCallMiddleware n none c rs) ∧
    handleRequest (get [] (.str "/") [.one throwMw]) (initConn "GET" "/") =
      ({ req := { method := "GET", url := "/" },
         res := { statusCode := 500, headersSent := true, ended := true,
                  body := "Internal Server Error" } }, .ok) := by
  exact ⟨fun n err c rs => rfl, by decide⟩

/-- Claim C5 (confirmed).  A handler calling the continuation with the
route-skip signal makes the dispatcher abandon every remaining handler of
the current registration group, clear any in-flight error, and resume at
the first entry after the group.  First part: an error-shape handler that
calls `next("route")` while an error is in flight continues with *no*
error over the routes after the group, its own group's tail discarded.
Second part: end-to-end, a thrown error handled by a mounted error-shape
handler that calls `next("route")` is cleared, and a differently-grouped
`GET /` route registered afterwards still runs.  Third part: a handler
calling `next("route")` skips the rest of its own group (the "SHOULD NOT
RUN" middleware) while a later group for the same path and method runs. -/
theorem C5_route_skip :
    (∀ (n : Nat) (e : EVal) (c : Conn) (fn : Mw) (tail : List Mw) (rs : List Route),
      fn.arity = 4 →
      fn.runError e c = ([], .callNext .route) →
      callMiddlewareTry (n + 2) (some e) c (fn :: tail) rs =
        findRouteAndCallMiddleware n none c rs) ∧
    handleRequest
        (get (use (get [] (.str "/") [.one throwMw]) errRouteMw) (.str "/") [.one helloMw])
        (initConn "GET" "/") =
      ({ req := { method := "GET", url := "/" },
         res := { statusCode := 200, headersSent := true, ended := true,
                  body := "Hello World!" } }, .ok) ∧
    handleRequest
        (get (get [] (.str "/") [.one routeSkipMw, .one badMw]) (.str "/") [.one helloMw])
        (initConn "GET" "/") =
      ({ req := { method := "GET", url := "/" },
         res := { statusCode := 200, headersSent := true, ended := true,
                  body := "Hello World!" } }, .ok) := by
  refine ⟨?_, by decide, by decide⟩
  intro n e c fn tail rs h4 hr
  simp [callMiddlewareTry, runProgram, h4, hr, runSteps]

/-- Witness for C5: the first part applied to `errRouteMw`. -/
theorem C5_witness :
    errRouteMw.arity = 4 ∧
    errRouteMw.runError (.user "boom") (initConn "GET" "/") = ([], .callNext .route) ∧
    callMiddlewareTry 2 (some (.user "boom")) (initConn "GET" "/") [errRouteMw] [] =
      findRouteAndCallMiddleware 0 none (initConn "GET" "/") [] :=
  ⟨by decide, by decide,
    C5_route_skip.1 0 (.user "boom") (initConn "GET" "/") errRouteMw [] []
      (by decide) (by decide)⟩

/-- Claim C6 (confirmed).  A synchronous raise inside a handler is caught
and converted into a continuation call carrying the raised value (first
part), after which the chain searches forward for an error-shape handler:
with none registered the response is the fixed 500 (second part); with an
error-shape handler that writes a response, that status and body are what
the client receives (third part: 200 with body "Oops!", the thrown
message); and when the error-shape handler itself raises, the failure is
re-captured and the final response is still the fixed 500 (fourth part). -/
theorem C6_sync_throw :
    (∀ (n : Nat) (c : Conn) (fn : Mw) (tail : List Mw) (rs : List Route) (e : EVal),
      fn.runNormal c = ([], .throwE e) →
      callMiddleware (n + 3) none c (fn :: tail) rs =
        findRouteAndCallMiddleware (n + 2) (some e) c rs) ∧
    handleRequest (get [] (.str "/") [.one throwMw]) (initConn "GET" "/") =
      ({ req := { method := "GET", url := "/" },
         res := { statusCode := 500, headersSent := true, ended := true,
                  body := "Internal Server Error" } }, .ok) ∧
    handleRequest (use (get [] (.str "/") [.one throwMw]) errMsgMw) (initConn "GET" "/") =
      ({ req := { method := "GET", url := "/" },
         res := { statusCode := 200, headersSent := true, ended := true,
                  body := "Oops!" } }, .ok) ∧
    handleRequest (use (get [] (.str "/") [.one throwMw]) errThrowMw) (initConn "GET" "/") =
      ({ req := { method := "GET", url := "/" },
         res := { statusCode := 500, headersSent := true, ended := true,
                  body := "Internal Server Error" } }, .ok) := by
  refine ⟨?_, by decide, by decide, by decide⟩
  intro n c fn tail rs e h
  simp [callMiddleware, callMiddlewareTry, runProgram, h, runSteps]

/-- Witness for C6: the first part applied to `throwMw`. -/
theorem C6_witness :
    throwMw.runNormal (initConn "GET" "/") = ([], .throwE (.user "Oops!")) ∧
    callMiddleware 3 none (initConn "GET" "/") [throwMw] [] =
      findRouteAndCallMiddleware 2 (some (.user "Oops!")) (initConn "GET" "/") [] :=
  ⟨by decide,
    C6_sync_throw.1 0 (initConn "GET" "/") throwMw [] [] (.user "Oops!") (by decide)⟩

/-- Claim C7, counterexample.  The claim says no request — including one
whose URL does not begin with "/" — ever makes the dispatcher throw out of
the request-handling call.  A request with URL `*` matches no route, not
even the default ones (their `/^\//` pattern requires a leading slash), so
`routes.find` yields `undefined`, reading `.middleware` of it raises a
`TypeError`, and the exception escapes `handleRequest` with nothing
written to the response. -/
theorem C7_counterexample :
    handleRequest [] (initConn "GET" "*") = (initConn "GET" "*", .ex .noRoute) ∧
    (handleRequest [] (initConn "GET" "*")).2 ≠ .ok := by
  exact ⟨by decide, by decide⟩

/-- Claim C7, amended.  For requests whose URL begins with "/",
route-finding always succeeds (at worst on the default routes), and
exhaustion yields the fixed 404 with no error in flight or the fixed 500
with one (headers unsent); but a request whose URL does not begin with "/"
finds no route at all and the dispatcher throws a raw `TypeError` out of
the request-handling call, and a failure that reaches the default
responders after headers were already sent likewise escapes as a thrown
error rather than a silently terminated body. -/
theorem C7_amended :
    (∀ (req : Req) (rs : List Route), startsWithSlash req.url = true →
      (findFirstMatch req (rs ++ defaultRoutes)).isSome = true) ∧
    handleRequest [] (initConn "GET" "/") =
      ({ req := { method := "GET", url := "/" },
         res := { statusCode := 404, headersSent := true, ended := true,
                  body := "Not Found" } }, .ok) ∧
    handleRequest (get [] (.str "/") [.one throwMw]) (initConn "GET" "/") =
      ({ req := { method := "GET", url := "/" },
         res := { statusCode := 500, headersSent := true, ended := true,
                  body := "Internal Server Error" } }, .ok) ∧
    handleRequest (get [] (.str "/") [.one endThenThrowMw]) (initConn "GET" "/") =
      ({ req := { method := "GET", url := "/" },
         res := { statusCode := 200, headersSent := true, ended := true,
                  body := "partial" } }, .ex .noRoute) := by
  refine ⟨?_, by decide, by decide, by decide⟩
  intro req rs h
  exact findFirstMatch_defaults req h rs

/-- Witness for C7: the first part applied to the url `/nope` with an empty
user registry. -/
theorem C7_witness :
    startsWithSlash ({ method := "GET", url := "/nope" } : Req).url = true ∧
    (findFirstMatch { method := "GET", url := "/nope" } ([] ++ defaultRoutes)).isSome = true :=
  ⟨by decide, C7_amended.1 { method := "GET", url := "/nope" } [] (by decide)⟩

/-- Claim C8, counterexample.  The claim says the mount variant appends one
method-agnostic root-prefix entry per supplied handler.  The code's `use`
accepts exactly one handler per call and appends a single route whose
middleware list is that handler *plus* the internal `callNextRoute` helper
— two functions for the one supplied handler, not one entry per handler. -/
theorem C8_counterexample :
    (use [] helloMw).map (fun r => r.middleware.map Mw.id) =
      [[helloMw.id, callNextRoute.id]] ∧
    (use [] helloMw).map (fun r => r.middleware.map Mw.id) ≠ [[helloMw.id]] := by
  exact ⟨by decide, by decide⟩

/-- Claim C8, amended.  `get(path, handlers...)` appends exactly one route
entry per call — the registration group — with method `"GET"`, whose
middleware list is the supplied handlers flattened by one level; the mount
variant `use(handler)` accepts exactly one handler per call and appends one
method-agnostic, root-prefix entry containing that handler followed by the
internal route-skip helper `callNextRoute`. -/
theorem C8_amended :
    (∀ (app : List Route) (path : PathSpec) (args : List MwArg),
      (get app path args).map (fun r => (r.method, r.middleware.map Mw.id)) =
        app.map (fun r => (r.method, r.middleware.map Mw.id)) ++
          [(some "GET", (flattenArgs args).map Mw.id)]) ∧
    (∀ (app : List Route) (cb : Mw),
      (use app cb).map (fun r => (r.method, r.middleware.map Mw.id)) =
        app.map (fun r => (r.method, r.middleware.map Mw.id)) ++
          [(none, [cb.id, callNextRoute.id])]) := by
  constructor
  · intro app path args
    exact List.map_append _ _ _
  · intro app cb
    exact List.map_append _ _ _

/-- Claim C9 (confirmed).  With a GET handler at `/` that ends the response
with body "Hello World!": a GET request to `/` yields status 200 and body
"Hello World!", a GET request to `/other` yields the 404 fallback, and a
POST request to `/` yields the 404 fallback. -/
theorem C9_exact_path :
    handleRequest (get [] (.str "/") [.one helloMw]) (initConn "GET" "/") =
      ({ req := { method := "GET", url := "/" },
         res := { statusCode := 200, headersSent := true, ended := true,
                  body := "Hello World!" } }, .ok) ∧
    handleRequest (get [] (.str "/") [.one helloMw]) (initConn "GET" "/other") =
      ({ req := { method := "GET", url := "/other" },
         res := { statusCode := 404, headersSent := true, ended := true,
                  body := "Not Found" } }, .ok) ∧
    handleRequest (get [] (.str "/") [.one helloMw]) (initConn "POST" "/") =
      ({ req := { method := "POST", url := "/" },
         res := { statusCode := 404, headersSent := true, ended := true,
                  body := "Not Found" } }, .ok) := by
  exact ⟨by decide, by decide, by decide⟩

/-- Claim C10 (confirmed).  A handler that synchronously calls the
continuation with no argument — so the rest of the chain runs to completion
inside that call — and then raises before returning still has the raise
captured: when the continuation over the remaining middleware and routes
completes normally in state `c2` (a response may well have been produced),
the enclosing frame's catch converts the post-continuation throw into an
error signal and traverses the unexplored routes `rs` a second time, now in
the error phase, starting from `c2`. -/
theorem C10_post_next_throw (n : Nat) (c c2 : Conn) (fn : Mw) (tail : List Mw)
    (rs : List Route) (e : EVal)
    (h1 : fn.runNormal c = ([], .callNextThenThrow .nil e))
    (h2 : callMiddleware n none c tail rs = (c2, .ok)) :
    callMiddleware (n + 3) none c (fn :: tail) rs =
      findRouteAndCallMiddleware (n + 2) (some e) c2 rs := by
  simp [callMiddleware, callMiddlewareTry, runProgram, h1, h2, runSteps]

/-- Witness for C10: `nextThenThrowMw` dispatched ahead of the default
routes; the first (error-free) walk produces the 404 response, and the
dispatcher then walks the default routes a second time carrying the
post-continuation error. -/
theorem C10_witness :
    nextThenThrowMw.runNormal (initConn "GET" "/") =
      ([], .callNextThenThrow .nil (.user "Oops!")) ∧
    callMiddleware 8 none (initConn "GET" "/") [] defaultRoutes =
      ({ req := { method := "GET", url := "/" },
         res := { statusCode := 404, headersSent := true, ended := true,
                  body := "Not Found" } }, .ok) ∧
    callMiddleware 11 none (initConn "GET" "/") [nextThenThrowMw] defaultRoutes =
      findRouteAndCallMiddleware 10 (some (.user "Oops!"))
        ({ req := { method := "GET", url := "/" },
           res := { statusCode := 404, headersSent := true, ended := true,
                    body := "Not Found" } }) defaultRoutes :=
  ⟨by decide, by decide,
    C10_post_next_throw 8 (initConn "GET" "/") _ nextThenThrowMw [] defaultRoutes
      (.user "Oops!") (by decide) (by decide)⟩
